import Mathlib

/-!
Verification of the artist-data pipeline (`data_collector.py`, `visualizer.py`)
against its natural-language specification.

The Python code is shallowly embedded: pandas DataFrames become Lean lists of
structures, nullable cells become `Option`, and code that can raise becomes
`Except`.  Each definition mirrors one Python function or code block; the
correspondence is noted in its doc comment.
-/

namespace DataCollector

/-- Python `str.isascii()`: every character has code point below 128
(`True` on the empty string). -/
def pyIsAscii (s : String) : Bool :=
  s.toList.all (fun c => c.toNat < 128)

/-- Exceptions the embedded code can raise: the `ValueError` that `int()`
raises on a digit string containing a non-decimal digit
(`data_collector.py` line 150), the `ValueError` that `result.json()`
raises on a non-JSON body (line 63), and the token-request failure raised
at line 45. -/
inductive PyError where
  | valueError
  | jsonDecode
  | tokenFailed (status : Nat)
  deriving Repr, DecidableEq

/-- Unicode decimal value of a character, as used by Python `int()`: `some`
for the decimal-digit blocks (Unicode category Nd) this model covers —
ASCII `0-9`, Arabic-Indic, Extended Arabic-Indic, Devanagari and fullwidth
digits — `none` otherwise.  Characters of further Nd blocks not listed here
are outside the model's domain (they behave like the covered blocks). -/
def pyCharDecimal (c : Char) : Option Nat :=
  let n := c.toNat
  if 0x30 ≤ n ∧ n ≤ 0x39 then some (n - 0x30)
  else if 0x660 ≤ n ∧ n ≤ 0x669 then some (n - 0x660)
  else if 0x6F0 ≤ n ∧ n ≤ 0x6F9 then some (n - 0x6F0)
  else if 0x966 ≤ n ∧ n ≤ 0x96F then some (n - 0x966)
  else if 0xFF10 ≤ n ∧ n ≤ 0xFF19 then some (n - 0xFF10)
  else none

/-- Python's per-character digit property (`str.isdigit`): true for every
decimal digit, and also for characters of Numeric_Type=Digit that carry no
decimal value — the superscript and subscript digits — which `int()`
rejects.  This is the Unicode classification restricted to the blocks named
here; all other characters (letters, punctuation, separators) are correctly
non-digits. -/
def pyCharIsDigit (c : Char) : Bool :=
  let n := c.toNat
  (pyCharDecimal c).isSome
    || n = 0xB2 || n = 0xB3 || n = 0xB9
    || n = 0x2070 || (0x2074 ≤ n && n ≤ 0x2079)
    || (0x2080 ≤ n && n ≤ 0x2089)

/-- Python `str.isdigit()` on a sequence of characters: `False` on the
empty string, else every character is a digit per `pyCharIsDigit`. -/
def pyIsDigit (cs : List Char) : Bool :=
  !cs.isEmpty && cs.all pyCharIsDigit

/-- Base-10 value taken by Python `int()` on an all-decimal-digit character
sequence (each character contributes its Unicode decimal value). -/
def pyInt (cs : List Char) : Int :=
  cs.foldl (fun a c => a * 10 + (((pyCharDecimal c).getD 0 : Nat) : Int)) 0

/-- Python `int()` on a character sequence: succeeds with the base-10 value
exactly when the sequence is non-empty and every character is a decimal
digit; raises `ValueError` otherwise — in particular on digit-but-not-
decimal characters such as superscripts, even though `isdigit` accepted
them. -/
def pyIntParse (cs : List Char) : Except PyError Int :=
  if !cs.isEmpty && cs.all (fun c => (pyCharDecimal c).isSome) then
    .ok (pyInt cs)
  else .error .valueError

/-- Python `str.lower()` for the country comparison, as the case-folded
character sequence (Python slices and folds by code point). -/
def pyLower (s : String) : List Char :=
  s.toList.map Char.toLower

/-- One raw catalog record as flattened by `pd.json_normalize`
(`data_collector.py` line 130).  Nested JSON fields `area.name`,
`life-span.begin`, `life-span.end`, `life-span.ended` become columns;
a missing field is a null cell, hence `Option`. -/
structure RawArtist where
  id : String
  name : String
  score : Int
  area_name : Option String
  lifespan_begin : Option String
  lifespan_end : Option String
  lifespan_ended : Option Bool
  deriving Repr, DecidableEq

/-- Model of `extract_year` (`data_collector.py` lines 146-150):
`None` for a null cell; else take the first 4 characters of the string and
run `int(year) if year.isdigit() else None`.  The `int()` call can raise:
a prefix that `isdigit` accepts but that contains a non-decimal digit
(e.g. a superscript) makes `extract_year` raise `ValueError` instead of
returning. -/
def extract_year (date_str : Option String) : Except PyError (Option Int) :=
  match date_str with
  | none => .ok none
  | some s =>
    let year := s.toList.take 4
    if pyIsDigit year then (pyIntParse year).map some
    else .ok none

/-- Value of `extract_year` on a cell where it does not raise.  The table
pipeline below (`deriveRow`, `process_artist_data`) describes completed
runs, in which no date cell raised; on a raising cell the real program
aborts the whole run (the raising behaviour itself is captured by
`extract_year` and settled under claim C2). -/
def extract_year_val (date_str : Option String) : Option Int :=
  match extract_year date_str with
  | .ok v => v
  | .error _ => none

/-- One row of the normalized artist table after the column selection at
`data_collector.py` line 162. -/
structure ArtistRow where
  name : String
  Country_name : Option String
  Year_formed : Option Int
  Year_disbanded : Option Int
  Ended : Bool
  Lifespan : Option Int
  deriving Repr, DecidableEq

/-- Column derivation (`data_collector.py` lines 140-155) applied to one row:
`Country_name` from `area.name`, years through `extract_year`,
`Ended = life-span.ended` with `replace({None: False, True: True})`
(null becomes `False`, booleans kept), `Lifespan` the difference of the two
years (null when either is null). -/
def deriveRow (r : RawArtist) : ArtistRow :=
  let yf := extract_year_val r.lifespan_begin
  let yd := extract_year_val r.lifespan_end
  { name := r.name
    Country_name := r.area_name
    Year_formed := yf
    Year_disbanded := yd
    Ended := r.lifespan_ended.getD false
    Lifespan := match yd, yf with
      | some a, some b => some (a - b)
      | _, _ => none }

/-- The `Ended` fix-up at `data_collector.py` line 171:
rows whose `Year_disbanded` is null get `Ended := False`. -/
def fixEnded (row : ArtistRow) : ArtistRow :=
  if row.Year_disbanded.isNone then { row with Ended := false } else row

/-- Model of `sort_values(by='score', ascending=False)` (`data_collector.py` line 137).
Descending by relevance score.  pandas' default sort kind is quicksort, whose
order among equal scores is unspecified; this model uses a merge sort, which
agrees with the source on the descending order of scores (the only property
relied on below). -/
def sortByScoreDesc (l : List RawArtist) : List RawArtist :=
  l.mergeSort (fun a b => b.score ≤ a.score)

/-- The country filter at `data_collector.py` lines 166-168:
`Country_name.str.lower().isin(countries.str.lower())`; a null country
(pandas NaN) never satisfies `isin`. -/
def countryValid (countries : List String) (c : Option String) : Bool :=
  match c with
  | none => false
  | some s => (countries.map pyLower).contains (pyLower s)

/-- Model of `ArtistDataCollector.process_artist_data` (`data_collector.py`
lines 125-174), with the Country Reference names passed in (the
`Country_name` column of `get_country_data`'s table).  Empty input gives the
explicit no-data signal `none` (line 134 `return None`); otherwise: sort by
score descending, derive columns, drop non-ASCII names, drop invalid
countries, then force `Ended := False` where `Year_disbanded` is null. -/
def process_artist_data (countries : List String) (fetched : List RawArtist) :
    Option (List ArtistRow) :=
  if fetched.isEmpty then none
  else
    let sorted := sortByScoreDesc fetched
    let derived := sorted.map deriveRow
    let english := derived.filter (fun row => pyIsAscii row.name)
    let valid := english.filter (fun row => countryValid countries row.Country_name)
    some (valid.map fixEnded)

/-- The rows of a normalizer result (`[]` for the no-data signal), used to
state row-membership properties uniformly. -/
def rowsOf (o : Option (List ArtistRow)) : List ArtistRow :=
  o.getD []

/-! Spotify client (`SpotifyAPI`, `data_collector.py` lines 13-68)

Time is an integer clock (`datetime.now()` passed in explicitly); network
responses are passed in as values.  An exception is an `Except.error`. -/

/-- Mutable state of `SpotifyAPI`: `self.token` and `self.token_expiry`,
both `None` after `__init__` (`data_collector.py` lines 18-19). -/
structure SpotifyAPI where
  token : Option String
  token_expiry : Option Int
  deriving Repr, DecidableEq

/-- Body of a successful token response: `access_token` may be absent
(`json_result.get('access_token')`), `expires_in` defaults to 3600
(`json_result.get('expires_in', 3600)`). -/
structure AuthJson where
  access_token : Option String
  expires_in : Option Int
  deriving Repr, DecidableEq

/-- An auth-endpoint response: HTTP status plus parsed body (used only when
the status is 200). -/
structure AuthResponse where
  status : Nat
  json : AuthJson
  deriving Repr, DecidableEq

/-- Python truthiness of `self.token` in `if self.token and ...`:
`None` and the empty string are falsy. -/
def pyTruthy (t : Option String) : Bool :=
  match t with
  | none => false
  | some s => !s.isEmpty

/-- The guard `self.token_expiry > datetime.now()`.  It is only evaluated
with a truthy token, in which case `token_expiry` was set together with the
token; a null expiry (which would raise a `TypeError` in Python) is
unreachable and modelled as false. -/
def expiryInFuture (expiry : Option Int) (now : Int) : Bool :=
  match expiry with
  | none => false
  | some e => now < e

/-- Model of `SpotifyAPI.get_token` (`data_collector.py` lines 21-45) at clock `now`,
with `resp` the response the auth endpoint would give if called.  Returns the
token handed to the caller, the new state, and the number of token requests
performed (0 or 1); a non-200 auth response raises. -/
def get_token (now : Int) (resp : AuthResponse) (s : SpotifyAPI) :
    Except PyError (Option String × SpotifyAPI × Nat) :=
  if pyTruthy s.token && expiryInFuture s.token_expiry now then
    .ok (s.token, s, 0)
  else if resp.status = 200 then
    .ok (resp.json.access_token,
         { token := resp.json.access_token
           token_expiry := some (now + (resp.json.expires_in.getD 3600)) },
         1)
  else
    .error (.tokenFailed resp.status)

/-- One artist entity from the streaming search (`artists.items` element),
with the nested fields `enrich_with_spotify` reads. -/
structure SpotifyArtist where
  followers_total : Int
  external_url : String
  popularity : Int
  images : List String
  deriving Repr, DecidableEq

/-- Parsed body of a search response: `json.get('artists', {}).get('items', [])`. -/
structure SearchJson where
  artists_items : List SpotifyArtist
  deriving Repr, DecidableEq

/-- A search-endpoint response: HTTP status, and the parsed body when the
body is valid JSON (`none` models a body on which `result.json()` raises). -/
structure SearchResponse where
  status : Nat
  json : Option SearchJson
  deriving Repr, DecidableEq

/-- Result of `SpotifyAPI.search_artist` instrumented for specification:
the returned match, the token placed in the Bearer header, the new client
state, and the number of token requests performed. -/
structure SearchOutcome where
  result : Option SpotifyArtist
  usedToken : Option String
  state : SpotifyAPI
  authRequests : Nat
  deriving Repr, DecidableEq

/-- Model of `SpotifyAPI.search_artist` (`data_collector.py` lines 47-68): first
`get_token`, then the search request.  A 200 response yields
`artists[0] if artists else None`, but `result.json()` on a non-JSON body
raises; a non-200 status logs and returns `None`. -/
def search_artist (now : Int) (auth : AuthResponse) (resp : SearchResponse)
    (s : SpotifyAPI) : Except PyError SearchOutcome :=
  match get_token now auth s with
  | .error e => .error e
  | .ok (tok, s1, n) =>
    if resp.status = 200 then
      match resp.json with
      | some j => .ok ⟨j.artists_items.head?, tok, s1, n⟩
      | none => .error .jsonDecode
    else .ok ⟨none, tok, s1, n⟩

/-! Catalog fetch (`ArtistDataCollector.fetch_artists`, lines 98-123) -/

/-- One catalog page response: status, whether the body is non-empty
(`response.content` truthiness), and the parsed `artists` array when the
body is valid JSON (`none` models the `ValueError` branch at line 113;
`some []` covers valid JSON without an `artists` key, via
`data.get('artists', [])`). -/
structure PageResponse where
  status : Nat
  content_nonempty : Bool
  artists : Option (List RawArtist)
  deriving Repr, DecidableEq

/-- The pagination loop of `fetch_artists` (`data_collector.py`
lines 103-120) over the successive page responses: a 200 response with
content contributes its `artists` array (nothing on invalid JSON, which is
only logged) and the loop continues; any other response breaks the loop.
The accumulated records are returned. -/
def fetchLoop : List PageResponse → List RawArtist
  | [] => []
  | r :: rest =>
    if r.status = 200 && r.content_nonempty then
      match r.artists with
      | some batch => batch ++ fetchLoop rest
      | none => fetchLoop rest
    else []

/-! Enrichment (`ArtistDataCollector.enrich_with_spotify`, lines 186-223) -/

/-- A row of the enriched table: the pre-existing columns plus the four
columns initialized to null at `data_collector.py` lines 191-194. -/
structure EnrichedRow where
  base : ArtistRow
  spotify_followers : Option Int
  spotify_url : Option String
  spotify_popularity : Option Int
  spotify_image : Option String
  deriving Repr, DecidableEq

/-- The loop body at `data_collector.py` lines 198-216 for one row, given
that row's lookup outcome (`None` when `search_artist` returned no match or
hit a non-success status): a match fills followers, url, popularity, and the
first image URL when any image exists; otherwise all four stay null.  The
final `pd.to_numeric(..., errors='coerce')` calls leave these values
unchanged (integers stay integers, nulls stay null). -/
def enrichRow (r : ArtistRow) (res : Option SpotifyArtist) : EnrichedRow :=
  match res with
  | none => ⟨r, none, none, none, none⟩
  | some a =>
    ⟨r, some a.followers_total, some a.external_url, some a.popularity,
      a.images.head?⟩

/-- The `iterrows` loop of `enrich_with_spotify`: rows are visited in order,
row `i` updated from its own lookup outcome. -/
def enrichLoop (lookup : Nat → Option SpotifyArtist) :
    Nat → List ArtistRow → List EnrichedRow
  | _, [] => []
  | i, r :: rest => enrichRow r (lookup i) :: enrichLoop lookup (i + 1) rest

/-- Model of `enrich_with_spotify` over the table, with `lookup i` the outcome of the
`i`-th row's `search_artist` call: each row is visited in order and updated
in place, so the row set, order, and pre-existing columns are whatever the
per-row update leaves them. -/
def enrich_with_spotify (rows : List ArtistRow)
    (lookup : Nat → Option SpotifyArtist) : List EnrichedRow :=
  enrichLoop lookup 0 rows

end DataCollector

namespace Visualizer

open DataCollector

/-! Report builder (`visualizer.py`)

The summary and charts read only the `name`, `Country_name`, `Ended` and
`Year_formed` columns of the enriched table, so they are modelled over
`ArtistRow` (enrichment preserves those columns). -/

/-- One row of the country reference (`get_country_data`), with `population`
already passed through `pd.to_numeric(..., errors='coerce')` as the
visualizer does at `visualizer.py` lines 43 and 211: `none` is the null that
a non-numeric population coerces to. -/
structure CountryRec where
  Country_name : String
  population : Option Int
  deriving Repr, DecidableEq

/-- The group keys of `merged_df.groupby('Country_name')`
(`visualizer.py` lines 37 and 205): the distinct country names occurring in
the artist table (a null key would be dropped by groupby; after
normalization `Country_name` is never null).  groupby sorts the keys; only
membership matters below, so first-occurrence order is kept. -/
def matchedCountries (rows : List ArtistRow) : List String :=
  (rows.filterMap (·.Country_name)).dedup

/-- Column `ArtistsCount` for one country: `groupby('Country_name')['name'].count()`
counts the non-null names in the group, and `name` is a string column, so it
is the number of artist rows carrying that country. -/
def artistsCount (rows : List ArtistRow) (c : String) : Nat :=
  (rows.filter (fun r => r.Country_name = some c)).length

/-- The population joined by the left merge with
`countries_df[['Country_name', 'population']]` (`visualizer.py`
lines 39-40 and 207-208); the reference has one row per country name. -/
def popOf (countries : List CountryRec) (c : String) : Option Int :=
  (countries.find? (fun k => k.Country_name = c)).bind (·.population)

/-- Column `ArtistsPerMillion` (`visualizer.py` lines 46-49 and 214-217):
`count / population * 1_000_000`, null exactly when the joined population is
null (the count is never null).  A zero population gives a non-null float
(`inf`) in pandas, hence still `some` here; `dropna` keeps it either way. -/
def artistsPerMillion (rows : List ArtistRow) (countries : List CountryRec)
    (c : String) : Option Rat :=
  (popOf countries c).map
    (fun p => (artistsCount rows c : Rat) * 1000000 / (p : Rat))

/-- The countries surviving the summary-text ranking filters
(`visualizer.py` line 52): first `ArtistsCount >= 3`, then
`dropna(subset=['ArtistsPerMillion'])`.  The subsequent sort and `head(3)`
only select from this set. -/
def summaryRankingCountries (rows : List ArtistRow)
    (countries : List CountryRec) : List String :=
  ((matchedCountries rows).filter (fun c => 3 ≤ artistsCount rows c)).filter
    (fun c => (artistsPerMillion rows countries c).isSome)

/-- The countries surviving the per-million chart filters (`visualizer.py`
lines 220-223): first `dropna(subset=['ArtistsPerMillion'])`, then
`ArtistsCount >= 3`.  The subsequent sort and `head(10)` only select from
this set. -/
def plotRankingCountries (rows : List ArtistRow)
    (countries : List CountryRec) : List String :=
  ((matchedCountries rows).filter
      (fun c => (artistsPerMillion rows countries c).isSome)).filter
    (fun c => 3 ≤ artistsCount rows c)

/-! Peak formation period (`create_summary_text`, lines 71-79) -/

/-- Series `self.artist_df['Year_formed'].dropna()`. -/
def yearsFormed (rows : List ArtistRow) : List Int :=
  rows.filterMap (·.Year_formed)

/-- The observed minimum formation year (`pd.cut` spans from the data
minimum); 0 is irrelevant padding for the empty list. -/
def minYearOf (ys : List Int) : Int :=
  ys.min?.getD 0

/-- The observed maximum formation year. -/
def maxYearOf (ys : List Int) : Int :=
  ys.max?.getD 0

/-- The bin `pd.cut(years, bins=5)` assigns to `y`, for data spanning
`mn < mx`: edges sit at `mn + j*(mx-mn)/5`, each bin is right-closed, and
the leftmost edge is lowered slightly so the minimum lands in bin 0.
Comparisons against the edges are cleared of denominators
(`y ≤ mn + j*(mx-mn)/5` becomes `5*(y-mn) ≤ j*(mx-mn)`); the integer data
and year-scale edges make the float edges of `pd.cut` exact for these
comparisons. -/
def bucketOf (mn mx y : Int) : Nat :=
  if 5 * (y - mn) ≤ (mx - mn) then 0
  else if 5 * (y - mn) ≤ 2 * (mx - mn) then 1
  else if 5 * (y - mn) ≤ 3 * (mx - mn) then 2
  else if 5 * (y - mn) ≤ 4 * (mx - mn) then 3
  else 4

/-- Entry of `bins.value_counts().sort_index()` for bin `i`: how many of the
years fall in that bin (a categorical `value_counts` reports every one of
the 5 bins, empty bins with count 0). -/
def periodCounts (ys : List Int) (i : Nat) : Nat :=
  (ys.filter (fun y => bucketOf (minYearOf ys) (maxYearOf ys) y = i)).length

/-- Model of `Series.idxmax` over the index-sorted counts `c0..c4`: the first index
holding the maximum. -/
def idxmax5 (c0 c1 c2 c3 c4 : Nat) : Nat :=
  let m := max c0 (max c1 (max c2 (max c3 c4)))
  if c0 = m then 0
  else if c1 = m then 1
  else if c2 = m then 2
  else if c3 = m then 3
  else 4

/-- Value of `period_counts.idxmax()` (`visualizer.py` line 76): the reported peak
formation bin. -/
def peakPeriodIdx (ys : List Int) : Nat :=
  idxmax5 (periodCounts ys 0) (periodCounts ys 1) (periodCounts ys 2)
    (periodCounts ys 3) (periodCounts ys 4)

/-- Spec-side description of the claims' bucketing: 5 equal-width
right-closed ranges spanning the observed years `mn..mx`, bucket `i`
covering `(mn + i*(mx-mn)/5, mn + (i+1)*(mx-mn)/5]`, with the minimum
itself in bucket 0.  Stated over integers after clearing the denominator 5. -/
def inEqualWidthBucket (mn mx : Int) (i : Nat) (y : Int) : Prop :=
  i < 5 ∧ 5 * (y - mn) ≤ ((i : Int) + 1) * (mx - mn) ∧
    (i = 0 ∨ (i : Int) * (mx - mn) < 5 * (y - mn))

end Visualizer


namespace DataCollector

lemma fixEnded_name (row : ArtistRow) : (fixEnded row).name = row.name := by
  unfold fixEnded; split <;> rfl

lemma fixEnded_Country_name (row : ArtistRow) :
    (fixEnded row).Country_name = row.Country_name := by
  unfold fixEnded; split <;> rfl

lemma fixEnded_Year_disbanded (row : ArtistRow) :
    (fixEnded row).Year_disbanded = row.Year_disbanded := by
  unfold fixEnded; split <;> rfl

/-- Fusion of the normalizer's derivation and filter steps into one pass:
the map and the two filters commute, so the result is the derived-and-fixed
image of the raw records with an ASCII name and a reference country. -/
lemma chain_eq (countries : List String) (m : List RawArtist) :
    (((m.map deriveRow).filter (fun row => pyIsAscii row.name)).filter
        (fun row => countryValid countries row.Country_name)).map fixEnded
      = (m.filter
          (fun r => pyIsAscii r.name && countryValid countries r.area_name)).map
          (fun r => fixEnded (deriveRow r)) := by
  rw [List.filter_filter, List.filter_map, List.map_map]
  have hfilter :
      m.filter ((fun row =>
          countryValid countries row.Country_name && pyIsAscii row.name) ∘ deriveRow)
        = m.filter (fun r => pyIsAscii r.name && countryValid countries r.area_name) := by
    apply List.filter_congr
    intro a _
    simp [deriveRow, Bool.and_comm]
  rw [hfilter]
  rfl

/-- The normalizer's surviving rows, as one filter over the sorted input. -/
lemma process_rows_eq (countries : List String) (raws : List RawArtist) :
    rowsOf (process_artist_data countries raws) =
      ((sortByScoreDesc raws).filter
          (fun r => pyIsAscii r.name && countryValid countries r.area_name)).map
        (fun r => fixEnded (deriveRow r)) := by
  cases raws with
  | nil => simp [process_artist_data, rowsOf, sortByScoreDesc]
  | cons a l =>
    simp only [process_artist_data, List.isEmpty_cons, Bool.false_eq_true,
      if_false, rowsOf, Option.getD_some]
    exact chain_eq countries (sortByScoreDesc (a :: l))

end DataCollector

section Claims

open DataCollector Visualizer

/-- Claim C2, counterexample: the claim states that year extraction
returns an integer exactly when the first 4 characters of the date string
are all digits, null otherwise, and never raises.  Two refutations on the
code: the 3-character string `"199"` does not have 4 characters, yet
`extract_year` returns the integer 199 (Python `"199"[:4]` is `"199"`,
which `isdigit` accepts); and the string `"\u00b2\u00b2\u00b2\u00b2"` (four
superscript-two characters) has a 4-character all-digit prefix per
`isdigit`, yet `int()` rejects superscripts, so `extract_year` raises a
`ValueError` instead of returning an integer — it is not exception-free. -/
theorem extract_year_cex :
    extract_year (some "199") = .ok (some 199) ∧ ¬ (4 ≤ "199".length) ∧
    extract_year (some "²²²²") = .error .valueError := by
  refine ⟨rfl, by decide, rfl⟩

/-- Claim C2 (amended): on a null date, year extraction returns null.  On a
present date string, with `year` its first up-to-4-character prefix:
it returns an integer exactly when `year` is non-empty and all decimal
digits (so a length-≥-4 all-decimal prefix parses as the claim says, but a
1-to-3-character all-decimal string also parses); it raises a `ValueError`
exactly when `year` is non-empty, all digits per `isdigit`, but contains a
digit with no decimal value (such as a superscript) — so it is not
exception-free; and it returns null exactly when `year` is empty or
contains a non-digit. -/
theorem extract_year_spec (s : String) :
    extract_year none = .ok none ∧
    ((∃ n, extract_year (some s) = .ok (some n)) ↔
      (s.toList.take 4 ≠ [] ∧
        ∀ c ∈ s.toList.take 4, (pyCharDecimal c).isSome = true)) ∧
    ((∃ e, extract_year (some s) = .error e) ↔
      (s.toList.take 4 ≠ [] ∧
        (∀ c ∈ s.toList.take 4, pyCharIsDigit c = true) ∧
        ∃ c ∈ s.toList.take 4, (pyCharDecimal c).isSome = false)) ∧
    (extract_year (some s) = .ok none ↔
      (s.toList.take 4 = [] ∨ ∃ c ∈ s.toList.take 4, pyCharIsDigit c = false)) := by
  have hAiff : pyIsDigit (s.toList.take 4) = true ↔
      (s.toList.take 4 ≠ [] ∧ ∀ c ∈ s.toList.take 4, pyCharIsDigit c = true) := by
    simp [pyIsDigit, List.isEmpty_iff, List.all_eq_true]
  have hBiff : (!(s.toList.take 4).isEmpty &&
        (s.toList.take 4).all (fun c => (pyCharDecimal c).isSome)) = true ↔
      (s.toList.take 4 ≠ [] ∧
        ∀ c ∈ s.toList.take 4, (pyCharDecimal c).isSome = true) := by
    simp [List.isEmpty_iff, List.all_eq_true]
  have hsub : ∀ c : Char, (pyCharDecimal c).isSome = true → pyCharIsDigit c = true := by
    intro c h
    simp [pyCharIsDigit, h]
  refine ⟨rfl, ?_⟩
  by_cases hB : (!(s.toList.take 4).isEmpty &&
      (s.toList.take 4).all (fun c => (pyCharDecimal c).isSome)) = true
  · obtain ⟨hne, hdec⟩ := hBiff.mp hB
    have hA : pyIsDigit (s.toList.take 4) = true :=
      hAiff.mpr ⟨hne, fun c hc => hsub c (hdec c hc)⟩
    have hval : extract_year (some s) = .ok (some (pyInt (s.toList.take 4))) := by
      simp only [extract_year, hA, if_true, pyIntParse, hB, Except.map]
    refine ⟨?_, ?_, ?_⟩
    · exact iff_of_true ⟨pyInt (s.toList.take 4), hval⟩ ⟨hne, hdec⟩
    · refine iff_of_false ?_ ?_
      · rintro ⟨e, he⟩
        rw [hval] at he
        exact absurd he (by simp)
      · rintro ⟨_, _, c, hc, hcd⟩
        rw [hdec c hc] at hcd
        exact absurd hcd (by simp)
    · refine iff_of_false ?_ ?_
      · intro h
        rw [hval] at h
        exact absurd (Except.ok.inj h) (by simp)
      · rintro (h0 | ⟨c, hc, hcd⟩)
        · exact hne h0
        · rw [hsub c (hdec c hc)] at hcd
          exact absurd hcd (by simp)
  · by_cases hA : pyIsDigit (s.toList.take 4) = true
    · have hval : extract_year (some s) = .error .valueError := by
        simp only [extract_year, hA, if_true, pyIntParse, hB, Bool.false_eq_true,
          if_false, Except.map]
      obtain ⟨hne, hdig⟩ := hAiff.mp hA
      have hexc : ∃ c ∈ s.toList.take 4, (pyCharDecimal c).isSome = false := by
        by_contra hno
        push_neg at hno
        exact hB (hBiff.mpr ⟨hne, fun c hc => by
          have := hno c hc
          revert this
          cases (pyCharDecimal c).isSome <;> simp⟩)
      refine ⟨?_, ?_, ?_⟩
      · refine iff_of_false ?_ ?_
        · rintro ⟨n, hn⟩
          rw [hval] at hn
          exact absurd hn (by simp)
        · intro hrhs
          exact hB (hBiff.mpr hrhs)
      · exact iff_of_true ⟨.valueError, hval⟩ ⟨hne, hdig, hexc⟩
      · refine iff_of_false ?_ ?_
        · intro h
          rw [hval] at h
          exact absurd h (by simp)
        · rintro (h0 | ⟨c, hc, hcd⟩)
          · exact hne h0
          · rw [hdig c hc] at hcd
            exact absurd hcd (by simp)
    · have hval : extract_year (some s) = .ok none := by
        have hA0 : pyIsDigit (s.toList.take 4) = false := by
          revert hA
          cases pyIsDigit (s.toList.take 4) <;> simp
        simp only [extract_year, hA0, Bool.false_eq_true, if_false]
      have hArhs : s.toList.take 4 = [] ∨
          ∃ c ∈ s.toList.take 4, pyCharIsDigit c = false := by
        by_contra hno
        push_neg at hno
        obtain ⟨h0, hall⟩ := hno
        exact hA (hAiff.mpr ⟨h0, fun c hc => by
          have := hall c hc
          revert this
          cases pyCharIsDigit c <;> simp⟩)
      refine ⟨?_, ?_, ?_⟩
      · refine iff_of_false ?_ ?_
        · rintro ⟨n, hn⟩
          rw [hval] at hn
          exact absurd (Except.ok.inj hn) (by simp)
        · rintro ⟨hne, hdec⟩
          exact hA (hAiff.mpr ⟨hne, fun c hc => hsub c (hdec c hc)⟩)
      · refine iff_of_false ?_ ?_
        · rintro ⟨e, he⟩
          rw [hval] at he
          exact absurd he (by simp)
        · rintro ⟨hne, hdig, _⟩
          exact hA (hAiff.mpr ⟨hne, hdig⟩)
      · exact iff_of_true hval hArhs

/-- Claim C2, witness: a real date string parses (returning branch), a
3-character decimal string parses, an Arabic-Indic digit string parses to
its decimal value, and a superscript string raises (error branch). -/
theorem extract_year_spec_witness :
    (∃ n, extract_year (some "1970-01-01") = .ok (some n)) ∧
    (∃ n, extract_year (some "199") = .ok (some n)) ∧
    (∃ n, extract_year (some "٣٣٣") = .ok (some n)) ∧
    (∃ e, extract_year (some "²²²²") = .error e) :=
  ⟨(extract_year_spec "1970-01-01").2.1.mpr (by decide),
   (extract_year_spec "199").2.1.mpr (by decide),
   (extract_year_spec "٣٣٣").2.1.mpr (by decide),
   (extract_year_spec "²²²²").2.2.1.mpr (by decide)⟩

end Claims

namespace DataCollector

/-- Unfolding of the country filter: a row's country passes exactly when it
is non-null and some reference entry matches it up to case. -/
lemma countryValid_iff (countries : List String) (c? : Option String) :
    countryValid countries c? = true ↔
      ∃ c, c? = some c ∧ ∃ entry ∈ countries, pyLower entry = pyLower c := by
  cases c? with
  | none => simp [countryValid]
  | some c =>
    have hmem : (countries.map pyLower).contains (pyLower c) = true ↔
        pyLower c ∈ countries.map pyLower :=
      ⟨fun h => List.elem_iff.mp h, fun h => List.elem_iff.mpr h⟩
    simp only [countryValid, hmem, List.mem_map, Option.some.injEq]
    constructor
    · rintro ⟨entry, hin, heq⟩
      exact ⟨c, rfl, entry, hin, heq⟩
    · rintro ⟨c2, rfl, entry, hin, heq⟩
      exact ⟨entry, hin, heq⟩

/-- Membership in the normalized table, unfolded to the raw-record level. -/
lemma mem_rowsOf_iff (countries : List String) (raws : List RawArtist)
    (row : ArtistRow) :
    row ∈ rowsOf (process_artist_data countries raws) ↔
      ∃ r, r ∈ raws ∧ pyIsAscii r.name = true ∧
        countryValid countries r.area_name = true ∧
        fixEnded (deriveRow r) = row := by
  rw [process_rows_eq]
  simp only [sortByScoreDesc, List.mem_map, List.mem_filter, List.mem_mergeSort,
    Bool.and_eq_true]
  constructor
  · rintro ⟨r, ⟨hr, ha, hc⟩, heq⟩
    exact ⟨r, hr, ha, hc, heq⟩
  · rintro ⟨r, hr, ha, hc, heq⟩
    exact ⟨r, ⟨hr, ha, hc⟩, heq⟩

end DataCollector

section Claims2

open DataCollector Visualizer

/-- Raw record used in several concrete checks: an ASCII name and a country
whose case differs from the reference entry, no end date, and an explicit
`ended = false` flag. -/
def grawRec : RawArtist :=
  ⟨"g1", "Rammstein", 95, some "GERMANY", some "1994-01-01", none, some false⟩

/-- Raw record with a non-ASCII display name. -/
def bjorkRec : RawArtist :=
  ⟨"b1", "Björk", 90, some "Iceland", some "1993", none, none⟩

/-- Raw record whose country is absent from the reference. -/
def atlantisRec : RawArtist :=
  ⟨"x1", "Lemuria", 80, some "Atlantis", some "1999", none, none⟩

/-- Claim C6: the normalizer returns the explicit no-data signal (`None`)
on an empty raw sequence, while a non-empty sequence whose rows are all
filtered out yields an empty table — a distinguishable outcome. -/
theorem process_no_data_signal :
    (∀ countries : List String, process_artist_data countries [] = none) ∧
    process_artist_data ["Germany"] [bjorkRec] = some [] ∧
    process_artist_data ["Germany"] [bjorkRec] ≠ process_artist_data ["Germany"] [] := by
  have h1 : ∀ countries : List String, process_artist_data countries [] = none :=
    fun _ => rfl
  have h2 : process_artist_data ["Germany"] [bjorkRec] = some [] := by
    simp only [process_artist_data, sortByScoreDesc, List.mergeSort_singleton]
    decide
  exact ⟨h1, h2, by rw [h2, h1]; simp⟩

/-- Claim C9: a row survives normalization exactly when its raw record has
an all-ASCII display name and a non-null country matching some Country
Reference entry case-insensitively; surviving rows inherit those
properties.  Concrete checks: name "Björk" is dropped, country "Atlantis"
is dropped, country "GERMANY" matches reference entry "Germany". -/
theorem process_filters_spec :
    (∀ (countries : List String) (raws : List RawArtist) (row : ArtistRow),
      (row ∈ rowsOf (process_artist_data countries raws) ↔
        ∃ r, r ∈ raws ∧ pyIsAscii r.name = true ∧
          (∃ c, r.area_name = some c ∧ ∃ entry ∈ countries, pyLower entry = pyLower c) ∧
          fixEnded (deriveRow r) = row) ∧
      (row ∈ rowsOf (process_artist_data countries raws) →
        pyIsAscii row.name = true ∧
          ∃ c, row.Country_name = some c ∧
            ∃ entry ∈ countries, pyLower entry = pyLower c)) ∧
    rowsOf (process_artist_data ["Iceland"] [bjorkRec]) = [] ∧
    rowsOf (process_artist_data ["Germany"] [atlantisRec]) = [] ∧
    (rowsOf (process_artist_data ["Germany"] [grawRec])).map ArtistRow.Country_name
      = [some "GERMANY"] := by
  refine ⟨fun countries raws row => ⟨?_, ?_⟩, ?_, ?_, ?_⟩
  · rw [mem_rowsOf_iff]
    constructor
    · rintro ⟨r, hr, ha, hc, heq⟩
      exact ⟨r, hr, ha, (countryValid_iff countries r.area_name).mp hc, heq⟩
    · rintro ⟨r, hr, ha, hc, heq⟩
      exact ⟨r, hr, ha, (countryValid_iff countries r.area_name).mpr hc, heq⟩
  · intro hmem
    rw [mem_rowsOf_iff] at hmem
    obtain ⟨r, _, ha, hc, heq⟩ := hmem
    subst heq
    refine ⟨?_, ?_⟩
    · rw [fixEnded_name]
      exact ha
    · rw [fixEnded_Country_name]
      have : (deriveRow r).Country_name = r.area_name := rfl
      rw [this]
      exact (countryValid_iff countries r.area_name).mp hc
  · rw [process_rows_eq]
    simp only [sortByScoreDesc, List.mergeSort_singleton]
    decide
  · rw [process_rows_eq]
    simp only [sortByScoreDesc, List.mergeSort_singleton]
    decide
  · rw [process_rows_eq]
    simp only [sortByScoreDesc, List.mergeSort_singleton]
    decide

/-- Claim C9, witness: the surviving "GERMANY" row satisfies the per-row
invariant against reference entry "Germany". -/
theorem process_filters_spec_witness :
    pyIsAscii (fixEnded (deriveRow grawRec)).name = true ∧
      ∃ c, (fixEnded (deriveRow grawRec)).Country_name = some c ∧
        ∃ entry ∈ ["Germany"], pyLower entry = pyLower c := by
  have hmem : fixEnded (deriveRow grawRec) ∈
      rowsOf (process_artist_data ["Germany"] [grawRec]) := by
    rw [process_rows_eq]
    simp only [sortByScoreDesc, List.mergeSort_singleton]
    decide
  exact (process_filters_spec.1 ["Germany"] [grawRec] (fixEnded (deriveRow grawRec))).2 hmem

end Claims2

namespace DataCollector

/-- Behaviour of the final `Ended` flag of a processed row: true exactly when
the source flag was literally `true` and the end year parsed. -/
lemma fixEnded_ended_iff (r : RawArtist) :
    (fixEnded (deriveRow r)).Ended = true ↔
      r.lifespan_ended = some true ∧
        ((fixEnded (deriveRow r)).Year_disbanded).isSome = true := by
  rw [fixEnded_Year_disbanded]
  cases hyd : extract_year_val r.lifespan_end with
  | none =>
    simp only [deriveRow, fixEnded, hyd, Option.isNone_none, if_true,
      Option.isSome_none]
    simp
  | some y =>
    cases hfl : r.lifespan_ended with
    | none =>
      simp only [deriveRow, fixEnded, hyd, hfl, Option.getD_none,
        Option.isNone_some, Bool.false_eq_true, if_false, Option.isSome_some]
      simp
    | some b =>
      cases b <;>
        simp only [deriveRow, fixEnded, hyd, hfl, Option.getD_some,
          Option.isNone_some, Bool.false_eq_true, if_false, Option.isSome_some] <;>
        simp

/-- A row whose `Year_disbanded` is null always leaves the fix-up with
`Ended = false`. -/
lemma fixEnded_none_ended (x : ArtistRow) :
    (fixEnded x).Year_disbanded = none → (fixEnded x).Ended = false := by
  unfold fixEnded
  split
  · intro _; rfl
  · next h =>
    intro hnone
    exact absurd (by simp [hnone] : x.Year_disbanded.isNone = true) h

end DataCollector

section Claims3

open DataCollector Visualizer

/-- Raw record with a parsable end date but no explicit `ended` flag. -/
def abbaDE : RawArtist :=
  ⟨"a1", "ABBA", 100, some "Germany", some "1970-01-01", some "1990-12-31", none⟩

/-- Claim C1, counterexample: the claim says the output `Ended` flag is true
iff `Year_disbanded` is non-null.  The record `abbaDE` has a parsable end
date (so `Year_disbanded = 1990`, non-null) but a null `life-span.ended`
flag, and the surviving row comes out with `Ended = false`: the flag does
depend on the source's dissolved flag, not only on the end year. -/
theorem ended_flag_cex :
    (rowsOf (process_artist_data ["Germany"] [abbaDE])).map
        (fun row => (row.Year_disbanded.isSome, row.Ended)) = [(true, false)] := by
  rw [process_rows_eq]
  simp only [sortByScoreDesc, List.mergeSort_singleton]
  decide

/-- Claim C1 (amended): for every raw record surviving normalization, the
output `Ended` flag is true iff the source record's dissolved flag is
literally `true` AND `Year_disbanded` is non-null.  In particular a source
marked dissolved with no parsable end year yields `Ended = false` (the
original claim's example), and so does a parsable end year with a
null-or-false dissolved flag (the correction). -/
theorem ended_flag_spec (countries : List String) (raws : List RawArtist)
    (row : ArtistRow) (hmem : row ∈ rowsOf (process_artist_data countries raws)) :
    (row.Year_disbanded = none → row.Ended = false) ∧
      ∃ r, r ∈ raws ∧ fixEnded (deriveRow r) = row ∧
        (row.Ended = true ↔
          r.lifespan_ended = some true ∧ row.Year_disbanded.isSome = true) := by
  rw [mem_rowsOf_iff] at hmem
  obtain ⟨r, hr, _, _, heq⟩ := hmem
  subst heq
  exact ⟨fixEnded_none_ended _, r, hr, rfl, fixEnded_ended_iff r⟩

/-- Claim C1, witness: a record explicitly marked ended with a parsed end
year comes out with `Ended = true`, matching the amended rule. -/
theorem ended_flag_spec_witness :
    ((fixEnded (deriveRow
        (⟨"s1", "ABBA", 100, some "Sweden", some "1972", some "1982",
          some true⟩ : RawArtist))).Year_disbanded = none →
      (fixEnded (deriveRow
        (⟨"s1", "ABBA", 100, some "Sweden", some "1972", some "1982",
          some true⟩ : RawArtist))).Ended = false) ∧
    ∃ r, r ∈ [(⟨"s1", "ABBA", 100, some "Sweden", some "1972", some "1982",
          some true⟩ : RawArtist)] ∧
      fixEnded (deriveRow r) = fixEnded (deriveRow
        (⟨"s1", "ABBA", 100, some "Sweden", some "1972", some "1982",
          some true⟩ : RawArtist)) ∧
      ((fixEnded (deriveRow
          (⟨"s1", "ABBA", 100, some "Sweden", some "1972", some "1982",
            some true⟩ : RawArtist))).Ended = true ↔
        r.lifespan_ended = some true ∧
          (fixEnded (deriveRow
            (⟨"s1", "ABBA", 100, some "Sweden", some "1972", some "1982",
              some true⟩ : RawArtist))).Year_disbanded.isSome = true) := by
  apply ended_flag_spec ["Sweden"]
  rw [process_rows_eq]
  simp only [sortByScoreDesc, List.mergeSort_singleton]
  decide

end Claims3

namespace DataCollector

/-- Enrichment leaves the underlying rows untouched. -/
lemma enrichLoop_map_base (lookup : Nat → Option SpotifyArtist) :
    ∀ (l : List ArtistRow) (i0 : Nat),
      (enrichLoop lookup i0 l).map EnrichedRow.base = l := by
  intro l
  induction l with
  | nil => intro i0; rfl
  | cons r rest ih =>
    intro i0
    have hbase : (enrichRow r (lookup i0)).base = r := by
      cases lookup i0 <;> rfl
    simp only [enrichLoop, List.map_cons, hbase, ih]

/-- Positional description of the enriched table. -/
lemma enrichLoop_getElem? (lookup : Nat → Option SpotifyArtist) :
    ∀ (l : List ArtistRow) (i0 i : Nat),
      (enrichLoop lookup i0 l)[i]? = l[i]?.map (fun r => enrichRow r (lookup (i0 + i))) := by
  intro l
  induction l with
  | nil => intro i0 i; rfl
  | cons r rest ih =>
    intro i0 i
    cases i with
    | zero =>
      simp only [enrichLoop, List.getElem?_cons_zero, Option.map_some', Nat.add_zero]
    | succ j =>
      simp only [enrichLoop, List.getElem?_cons_succ]
      have h12 : i0 + 1 + j = i0 + (j + 1) := by omega
      rw [ih (i0 + 1) j, h12]

end DataCollector

section Claims4

open DataCollector Visualizer

/-- Claim C10: Spotify enrichment only adds the four `spotify_*` columns —
the rows, their order, and every pre-existing column are unchanged (the
table stripped of the new columns equals the input) — and a row whose
lookup errored or found no match (`lookup i = none`) has all four
enrichment fields null. -/
theorem enrich_frame_spec (rows : List ArtistRow)
    (lookup : Nat → Option SpotifyArtist) :
    ((enrich_with_spotify rows lookup).map EnrichedRow.base = rows) ∧
    (∀ (i : Nat) (e : EnrichedRow),
      (enrich_with_spotify rows lookup)[i]? = some e →
        some e.base = rows[i]? ∧
        (lookup i = none →
          e.spotify_followers = none ∧ e.spotify_url = none ∧
          e.spotify_popularity = none ∧ e.spotify_image = none)) := by
  refine ⟨enrichLoop_map_base lookup rows 0, ?_⟩
  intro i e h
  rw [enrich_with_spotify, enrichLoop_getElem? lookup rows 0 i, Nat.zero_add] at h
  cases hr : rows[i]? with
  | none => rw [hr] at h; exact absurd h (by simp)
  | some r =>
    rw [hr, Option.map_some'] at h
    have he : enrichRow r (lookup i) = e := Option.some.inj h
    subst he
    constructor
    · cases lookup i <;> rfl
    · intro hnone
      simp [enrichRow, hnone]

/-- Claim C10, witness: one row with a failed lookup keeps its base row and
has all four enrichment fields null. -/
theorem enrich_frame_spec_witness :
    ((enrich_with_spotify
        [⟨"ABBA", some "Sweden", some 1972, some 1982, true, some 10⟩]
        (fun _ => none)).map EnrichedRow.base
      = [⟨"ABBA", some "Sweden", some 1972, some 1982, true, some 10⟩]) ∧
    (some (⟨⟨"ABBA", some "Sweden", some 1972, some 1982, true, some 10⟩,
        none, none, none, none⟩ : EnrichedRow).base
      = [(⟨"ABBA", some "Sweden", some 1972, some 1982, true, some 10⟩ : ArtistRow)][0]? ∧
      ((⟨⟨"ABBA", some "Sweden", some 1972, some 1982, true, some 10⟩,
          none, none, none, none⟩ : EnrichedRow).spotify_followers = none ∧
        (⟨⟨"ABBA", some "Sweden", some 1972, some 1982, true, some 10⟩,
          none, none, none, none⟩ : EnrichedRow).spotify_url = none ∧
        (⟨⟨"ABBA", some "Sweden", some 1972, some 1982, true, some 10⟩,
          none, none, none, none⟩ : EnrichedRow).spotify_popularity = none ∧
        (⟨⟨"ABBA", some "Sweden", some 1972, some 1982, true, some 10⟩,
          none, none, none, none⟩ : EnrichedRow).spotify_image = none)) := by
  have h := enrich_frame_spec
    [⟨"ABBA", some "Sweden", some 1972, some 1982, true, some 10⟩] (fun _ => none)
  refine ⟨h.1, ?_⟩
  have h2 := h.2 0
    ⟨⟨"ABBA", some "Sweden", some 1972, some 1982, true, some 10⟩,
      none, none, none, none⟩ rfl
  exact ⟨h2.1, h2.2 rfl⟩

end Claims4

namespace DataCollector

/-- Cached branch of `get_token`: a truthy token whose expiry is in the
future is returned as-is, with no token request. -/
lemma get_token_cached {now : Int} {auth : AuthResponse} {s : SpotifyAPI}
    (ht : pyTruthy s.token = true) (he : expiryInFuture s.token_expiry now = true) :
    get_token now auth s = .ok (s.token, s, 0) := by
  simp [get_token, ht, he]

/-- Refresh branch of `get_token`: when the cached-token guard fails and the
auth endpoint answers 200, a single token request stores and returns the
fresh token with expiry `now + expires_in` (default 3600). -/
lemma get_token_fresh {now : Int} {auth : AuthResponse} {s : SpotifyAPI}
    (hg : (pyTruthy s.token && expiryInFuture s.token_expiry now) = false)
    (h200 : auth.status = 200) :
    get_token now auth s =
      .ok (auth.json.access_token,
        { token := auth.json.access_token
          token_expiry := some (now + (auth.json.expires_in.getD 3600)) }, 1) := by
  simp only [get_token, hg, Bool.false_eq_true, if_false, h200, if_true]

/-- Failure branch of `get_token`: guard failed and the auth endpoint did
not answer 200. -/
lemma get_token_failed {now : Int} {auth : AuthResponse} {s : SpotifyAPI}
    (hg : (pyTruthy s.token && expiryInFuture s.token_expiry now) = false)
    (h200 : auth.status ≠ 200) :
    get_token now auth s = .error (.tokenFailed auth.status) := by
  simp only [get_token, hg, Bool.false_eq_true, if_false, h200, if_true]

/-- Any successful search outcome comes from a successful `get_token`, and
carries that call's token, state and request count. -/
lemma search_artist_ok_inv {now : Int} {auth : AuthResponse}
    {resp : SearchResponse} {s : SpotifyAPI} {out : SearchOutcome}
    (h : search_artist now auth resp s = .ok out) :
    get_token now auth s = .ok (out.usedToken, out.state, out.authRequests) := by
  unfold search_artist at h
  cases hg : get_token now auth s with
  | error e =>
    rw [hg] at h
    have h9 : (Except.error e : Except PyError SearchOutcome) = .ok out := h
    exact absurd h9 (by simp)
  | ok v =>
    obtain ⟨tok, s1, n⟩ := v
    rw [hg] at h
    have h9 : (if resp.status = 200 then
        match resp.json with
        | some j =>
          Except.ok (⟨j.artists_items.head?, tok, s1, n⟩ : SearchOutcome)
        | none => Except.error PyError.jsonDecode
      else Except.ok (⟨none, tok, s1, n⟩ : SearchOutcome)) = .ok out := h
    by_cases h200 : resp.status = 200
    · rw [if_pos h200] at h9
      cases hj : resp.json with
      | none =>
        rw [hj] at h9
        exact absurd h9 (by simp)
      | some j =>
        rw [hj] at h9
        have h8 := Except.ok.inj h9
        rw [← h8]
    · rw [if_neg h200] at h9
      have h8 := Except.ok.inj h9
      rw [← h8]

end DataCollector

section Claims5

open DataCollector Visualizer

/-- Claim C3: token lifecycle of the enrichment client.  For any lookup at
clock `now` from any client state: (a) with a cached token whose expiry
lies in the future, the lookup performs no token request, uses exactly the
cached token, and leaves the state unchanged; (b) with no cached token, or
a cached expiry at or before `now`, a successful lookup performs exactly
one token request; (c) whenever `get_token` hands a token to the search
step (and the declared lifetime is non-negative), the state records that
token with an expiry at or after `now` — the token is never used for a
search strictly after its recorded expiry. -/
theorem token_lifecycle_spec (now : Int) (auth : AuthResponse)
    (resp : SearchResponse) (s : SpotifyAPI) (out : SearchOutcome) :
    (pyTruthy s.token = true → expiryInFuture s.token_expiry now = true →
      search_artist now auth resp s = .ok out →
      out.authRequests = 0 ∧ out.usedToken = s.token ∧ out.state = s) ∧
    ((s.token = none ∨ ∃ e, s.token_expiry = some e ∧ e ≤ now) →
      search_artist now auth resp s = .ok out → out.authRequests = 1) ∧
    (0 ≤ auth.json.expires_in.getD 3600 →
      ∀ (tok : Option String) (s1 : SpotifyAPI) (n : Nat),
        get_token now auth s = .ok (tok, s1, n) →
        s1.token = tok ∧ ∃ e, s1.token_expiry = some e ∧ now ≤ e) := by
  refine ⟨?_, ?_, ?_⟩
  · intro ht he hs
    have hinv := search_artist_ok_inv hs
    rw [get_token_cached ht he] at hinv
    have h0 := Except.ok.inj hinv
    injection h0 with h1 h23
    injection h23 with h2 h3
    exact ⟨h3.symm, h1.symm, h2.symm⟩
  · intro hcase hs
    have hinv := search_artist_ok_inv hs
    have hg : (pyTruthy s.token && expiryInFuture s.token_expiry now) = false := by
      rcases hcase with hnone | ⟨e, hexp, hle⟩
      · simp [pyTruthy, hnone]
      · simp [expiryInFuture, hexp, not_lt.mpr hle]
    by_cases h200 : auth.status = 200
    · rw [get_token_fresh hg h200] at hinv
      have h0 := Except.ok.inj hinv
      injection h0 with h1 h23
      injection h23 with h2 h3
      exact h3.symm
    · rw [get_token_failed hg h200] at hinv
      exact absurd hinv (by simp)
  · intro hpos tok s1 n hg
    by_cases hcache : (pyTruthy s.token && expiryInFuture s.token_expiry now) = true
    · obtain ⟨ht, he⟩ := Bool.and_eq_true_iff.mp hcache
      rw [get_token_cached ht he] at hg
      have h0 := Except.ok.inj hg
      injection h0 with h1 h23
      injection h23 with h2 h3
      cases hexp : s.token_expiry with
      | none =>
        rw [hexp] at he
        exact absurd he (by simp [expiryInFuture])
      | some e =>
        refine ⟨by rw [← h2]; exact h1, e, by rw [← h2]; exact hexp, ?_⟩
        rw [hexp] at he
        have hlt : now < e := of_decide_eq_true he
        exact le_of_lt hlt
    · have hg9 : (pyTruthy s.token && expiryInFuture s.token_expiry now) = false := by
        revert hcache
        cases pyTruthy s.token && expiryInFuture s.token_expiry now <;> simp
      by_cases h200 : auth.status = 200
      · rw [get_token_fresh hg9 h200] at hg
        have h0 := Except.ok.inj hg
        injection h0 with h1 h23
        injection h23 with h2 h3
        refine ⟨?_, now + (auth.json.expires_in.getD 3600), ?_, by omega⟩
        · rw [← h2, ← h1]
        · rw [← h2]
      · rw [get_token_failed hg9 h200] at hg
        exact absurd hg (by simp)

/-- Claim C3, witness: the three branches exercised on concrete states — a
valid cached token (no request, cached token reused), an empty initial
state (exactly one request), and a fresh grant recording an unexpired
token. -/
theorem token_lifecycle_spec_witness :
    ((⟨none, some "tok", ⟨some "tok", some 10⟩, 0⟩ : SearchOutcome).authRequests = 0 ∧
      (⟨none, some "tok", ⟨some "tok", some 10⟩, 0⟩ : SearchOutcome).usedToken
        = (⟨some "tok", some 10⟩ : SpotifyAPI).token ∧
      (⟨none, some "tok", ⟨some "tok", some 10⟩, 0⟩ : SearchOutcome).state
        = (⟨some "tok", some 10⟩ : SpotifyAPI)) ∧
    ((⟨none, some "t2", ⟨some "t2", some 3600⟩, 1⟩ : SearchOutcome).authRequests = 1) ∧
    ((⟨some "t2", some 3600⟩ : SpotifyAPI).token = some "t2" ∧
      ∃ e, (⟨some "t2", some 3600⟩ : SpotifyAPI).token_expiry = some e ∧ (0 : Int) ≤ e) := by
  have h1 := (token_lifecycle_spec 0 ⟨200, ⟨some "t2", some 3600⟩⟩ ⟨404, none⟩
      ⟨some "tok", some 10⟩ ⟨none, some "tok", ⟨some "tok", some 10⟩, 0⟩).1
    (by decide) (by decide) rfl
  have h2 := (token_lifecycle_spec 0 ⟨200, ⟨some "t2", some 3600⟩⟩ ⟨404, none⟩
      ⟨none, none⟩ ⟨none, some "t2", ⟨some "t2", some 3600⟩, 1⟩).2.1
    (Or.inl rfl) rfl
  have h3 := (token_lifecycle_spec 0 ⟨200, ⟨some "t2", some 3600⟩⟩ ⟨404, none⟩
      ⟨none, none⟩ ⟨none, some "t2", ⟨some "t2", some 3600⟩, 1⟩).2.2
    (by decide) (some "t2") ⟨some "t2", some 3600⟩ 1 rfl
  exact ⟨h1, h2, h3⟩

end Claims5

section Claims6

open DataCollector Visualizer

/-- Claim C4, counterexample: the claim says a response body that is not
valid JSON is treated as an empty result for that call and the run does not
raise; for an enrichment lookup the code calls `result.json()` with no
exception handler (`data_collector.py` line 63), so a 200 response with a
non-JSON body raises a `ValueError` out of `search_artist` (and out of the
unguarded loop in `enrich_with_spotify`) instead of skipping the artist.
Concretely, with a valid cached token and such a response the lookup
evaluates to the raised error, not to a result. -/
theorem search_malformed_json_cex :
    search_artist 0 ⟨200, ⟨some "tok", some 3600⟩⟩ ⟨200, none⟩
        ⟨some "tok", some 10⟩ = .error .jsonDecode := rfl

/-- Claim C4 (amended): a catalog page whose body is not valid JSON
contributes zero records and pagination continues with the remaining pages
(that half of the claim holds); for an enrichment lookup, only a
*non-success status* is treated as "no match" for that one artist — a
success status with a non-JSON body is not handled and the lookup never
returns a result (it raises). -/
theorem malformed_json_spec (r : PageResponse) (rest : List PageResponse)
    (now : Int) (auth : AuthResponse) (resp : SearchResponse) (s : SpotifyAPI) :
    (r.status = 200 → r.content_nonempty = true → r.artists = none →
      fetchLoop (r :: rest) = fetchLoop rest) ∧
    (∀ out : SearchOutcome, resp.status ≠ 200 →
      search_artist now auth resp s = .ok out → out.result = none) ∧
    (resp.status = 200 → resp.json = none →
      ∀ out : SearchOutcome, search_artist now auth resp s ≠ .ok out) := by
  refine ⟨?_, ?_, ?_⟩
  · intro h200 hc hj
    simp [fetchLoop, h200, hc, hj]
  · intro out hn hs
    unfold search_artist at hs
    cases hg : get_token now auth s with
    | error e =>
      rw [hg] at hs
      exact absurd (hs : (Except.error e : Except PyError SearchOutcome) = .ok out)
        (by simp)
    | ok v =>
      obtain ⟨tok, s1, n⟩ := v
      rw [hg] at hs
      have h9 : (if resp.status = 200 then
          match resp.json with
          | some j =>
            Except.ok (⟨j.artists_items.head?, tok, s1, n⟩ : SearchOutcome)
          | none => Except.error PyError.jsonDecode
        else Except.ok (⟨none, tok, s1, n⟩ : SearchOutcome)) = .ok out := hs
      rw [if_neg hn] at h9
      have h8 := Except.ok.inj h9
      rw [← h8]
  · intro h200 hj out hs
    unfold search_artist at hs
    cases hg : get_token now auth s with
    | error e =>
      rw [hg] at hs
      exact absurd (hs : (Except.error e : Except PyError SearchOutcome) = .ok out)
        (by simp)
    | ok v =>
      obtain ⟨tok, s1, n⟩ := v
      rw [hg] at hs
      have h9 : (if resp.status = 200 then
          match resp.json with
          | some j =>
            Except.ok (⟨j.artists_items.head?, tok, s1, n⟩ : SearchOutcome)
          | none => Except.error PyError.jsonDecode
        else Except.ok (⟨none, tok, s1, n⟩ : SearchOutcome)) = .ok out := hs
      rw [if_pos h200, hj] at h9
      exact absurd h9 (by simp)

/-- Claim C4, witness: a malformed middle page contributes nothing while the
following page's records still arrive, and a 404 lookup yields "no match"
without raising. -/
theorem malformed_json_spec_witness :
    fetchLoop [⟨200, true, none⟩, ⟨200, true, some [grawRec]⟩]
        = fetchLoop [⟨200, true, some [grawRec]⟩] ∧
    (⟨none, some "tok", ⟨some "tok", some 10⟩, 0⟩ : SearchOutcome).result = none ∧
    search_artist 0 ⟨200, ⟨some "t2", some 3600⟩⟩ ⟨200, none⟩
        ⟨some "tok", some 10⟩ ≠
      .ok ⟨none, some "tok", ⟨some "tok", some 10⟩, 0⟩ := by
  have h := malformed_json_spec ⟨200, true, none⟩ [⟨200, true, some [grawRec]⟩]
    0 ⟨200, ⟨some "t2", some 3600⟩⟩ ⟨404, none⟩ ⟨some "tok", some 10⟩
  have h2 := malformed_json_spec ⟨200, true, none⟩ [⟨200, true, some [grawRec]⟩]
    0 ⟨200, ⟨some "t2", some 3600⟩⟩ ⟨200, none⟩ ⟨some "tok", some 10⟩
  exact ⟨h.1 rfl rfl rfl,
    h.2.1 ⟨none, some "tok", ⟨some "tok", some 10⟩, 0⟩ (by decide) rfl,
    h2.2.2 rfl rfl ⟨none, some "tok", ⟨some "tok", some 10⟩, 0⟩⟩

end Claims6

namespace Visualizer

/-- Nullity of `ArtistsPerMillion` tracks nullity of the joined population. -/
lemma isSome_artistsPerMillion (rows : List DataCollector.ArtistRow)
    (countries : List CountryRec) (c : String) :
    (artistsPerMillion rows countries c).isSome = (popOf countries c).isSome := by
  unfold artistsPerMillion
  cases popOf countries c <;> rfl

/-- Lower bound of list elements from `min?`. -/
lemma min?_le_of_mem {ys : List Int} {mn y : Int}
    (h : ys.min? = some mn) (hy : y ∈ ys) : mn ≤ y :=
  (List.le_min?_iff (fun _ _ _ => le_min_iff) h).1 (le_refl mn) y hy

/-- Upper bound of list elements from `max?`. -/
lemma le_max?_of_mem {ys : List Int} {mx y : Int}
    (h : ys.max? = some mx) (hy : y ∈ ys) : y ≤ mx :=
  (List.max?_le_iff (fun _ _ _ => max_le_iff) h).1 (le_refl mx) y hy

/-- The model of `pd.cut` assigns exactly the equal-width right-closed
buckets of the claim, for data inside the observed span. -/
lemma bucketOf_spec {mn mx y : Int} (hlt : mn < mx) (h1 : mn ≤ y) (h2 : y ≤ mx)
    (i : Nat) : bucketOf mn mx y = i ↔ inEqualWidthBucket mn mx i y := by
  constructor
  · rintro rfl
    unfold bucketOf
    split_ifs with ha hb hc hd
    · exact ⟨by norm_num, by push_cast; omega, Or.inl rfl⟩
    · exact ⟨by norm_num, by push_cast; omega, Or.inr (by push_cast; omega)⟩
    · exact ⟨by norm_num, by push_cast; omega, Or.inr (by push_cast; omega)⟩
    · exact ⟨by norm_num, by push_cast; omega, Or.inr (by push_cast; omega)⟩
    · exact ⟨by norm_num, by push_cast; omega, Or.inr (by push_cast; omega)⟩
  · intro h
    obtain ⟨hi5, hub, hlb⟩ := h
    rcases hlb with h0 | hgt
    · subst h0
      unfold bucketOf
      push_cast at hub
      split_ifs with ha hb hc hd <;> omega
    · interval_cases i <;>
        (unfold bucketOf
         push_cast at hub hgt
         split_ifs with ha hb hc hd <;> omega)

end Visualizer

section Claims7

open DataCollector Visualizer

/-- Claim C7: in both the summary statistics and the per-million chart, a
country enters the "artists per million" ranking exactly when it occurs in
the artist table with at least 3 matched artists and its joined population
is numeric (non-null after coercion); hence a country with fewer than 3
artists is excluded even when its population is available, and a country
with a non-numeric population is excluded from the ranking. -/
theorem per_million_threshold_spec (rows : List ArtistRow)
    (countries : List CountryRec) (c : String) :
    (c ∈ summaryRankingCountries rows countries ↔
      c ∈ matchedCountries rows ∧ 3 ≤ artistsCount rows c ∧
        (popOf countries c).isSome = true) ∧
    (c ∈ plotRankingCountries rows countries ↔
      c ∈ matchedCountries rows ∧ 3 ≤ artistsCount rows c ∧
        (popOf countries c).isSome = true) := by
  have e1 : c ∈ summaryRankingCountries rows countries ↔
      (c ∈ matchedCountries rows ∧ 3 ≤ artistsCount rows c) ∧
        (artistsPerMillion rows countries c).isSome = true := by
    simp only [summaryRankingCountries, List.mem_filter, decide_eq_true_eq]
  have e2 : c ∈ plotRankingCountries rows countries ↔
      (c ∈ matchedCountries rows ∧
        (artistsPerMillion rows countries c).isSome = true) ∧
        3 ≤ artistsCount rows c := by
    simp only [plotRankingCountries, List.mem_filter, decide_eq_true_eq]
  rw [e1, e2, isSome_artistsPerMillion]
  constructor
  · tauto
  · tauto

end Claims7

section Claims8

open DataCollector Visualizer

/-- Artist table with formation years 1990, 1991, 1995, 2000, 2010 (the
spec's own test vector for the peak-period bucketing). -/
def sampleRows : List ArtistRow :=
  [⟨"a", some "X", some 1990, none, false, none⟩,
   ⟨"b", some "X", some 1991, none, false, none⟩,
   ⟨"c", some "X", some 1995, none, false, none⟩,
   ⟨"d", some "X", some 2000, none, false, none⟩,
   ⟨"e", some "X", some 2010, none, false, none⟩]

/-- Claim C8: the peak formation period is computed by bucketing the rows
with a non-null formation year into 5 equal-width right-closed ranges
spanning the observed minimum and maximum year (`inEqualWidthBucket`), and
the reported bucket holds at least as many artists as every bucket, with a
tie resolved deterministically in favour of the earliest bucket (every
strictly earlier bucket holds strictly fewer artists). -/
theorem peak_period_spec (rows : List ArtistRow) (mn mx : Int)
    (hlen : 2 ≤ (yearsFormed rows).length)
    (hmin : (yearsFormed rows).min? = some mn)
    (hmax : (yearsFormed rows).max? = some mx)
    (hlt : mn < mx) :
    peakPeriodIdx (yearsFormed rows) < 5 ∧
    (∀ i : Nat, periodCounts (yearsFormed rows) i =
      ((yearsFormed rows).filter (fun y => bucketOf mn mx y = i)).length) ∧
    (∀ y ∈ yearsFormed rows, ∀ i : Nat,
      (bucketOf mn mx y = i ↔ inEqualWidthBucket mn mx i y)) ∧
    (∀ i < 5, periodCounts (yearsFormed rows) i ≤
      periodCounts (yearsFormed rows) (peakPeriodIdx (yearsFormed rows))) ∧
    (∀ i < peakPeriodIdx (yearsFormed rows),
      periodCounts (yearsFormed rows) i <
        periodCounts (yearsFormed rows) (peakPeriodIdx (yearsFormed rows))) := by
  have hcnt : ∀ i : Nat, periodCounts (yearsFormed rows) i =
      ((yearsFormed rows).filter (fun y => bucketOf mn mx y = i)).length := by
    intro i
    unfold periodCounts minYearOf maxYearOf
    rw [hmin, hmax]
    simp only [Option.getD_some]
  have hforall : ∀ y ∈ yearsFormed rows, ∀ i : Nat,
      (bucketOf mn mx y = i ↔ inEqualWidthBucket mn mx i y) :=
    fun y hy i =>
      bucketOf_spec hlt (min?_le_of_mem hmin hy) (le_max?_of_mem hmax hy) i
  refine ⟨?_, hcnt, hforall, ?_, ?_⟩
  · simp only [peakPeriodIdx, idxmax5]
    split_ifs <;> norm_num
  · intro i hi
    simp only [peakPeriodIdx, idxmax5]
    split_ifs with h0 h1 h2 h3 <;> interval_cases i <;> omega
  · intro i hi
    simp only [peakPeriodIdx, idxmax5] at hi ⊢
    split_ifs at hi ⊢ with h0 h1 h2 h3 <;> interval_cases i <;> omega

/-- Claim C8, witness: the spec's test vector {1990, 1991, 1995, 2000, 2010}
yields a single deterministic peak bucket — the earliest one, holding
years 1990 and 1991. -/
theorem peak_period_spec_witness :
    2 ≤ (yearsFormed sampleRows).length ∧
    periodCounts (yearsFormed sampleRows) 1 ≤
      periodCounts (yearsFormed sampleRows) (peakPeriodIdx (yearsFormed sampleRows)) ∧
    peakPeriodIdx (yearsFormed sampleRows) = 0 := by
  have h := peak_period_spec sampleRows 1990 2010
    (by decide) (by decide) (by decide) (by decide)
  exact ⟨by decide, h.2.2.2.1 1 (by decide), by decide⟩

end Claims8
